import Mathlib

/-!
Verification of the McChickenFormula repository's hybrid strategy engine
specification against the source.  Numeric JavaScript values are embedded
as rationals (`ℚ`), machine integers as `ℤ`/`ℕ`, and JS `undefined` /
thrown exceptions as `Option`/`Except` values.  Definitions mirror the
TypeScript source under `src/frontend`; components of the backend engine
that are absent from the repository snapshot are modelled from the spec
and marked as such in their doc comments.
-/

namespace McChicken

/-- Error taxonomy of the engine, from spec section 7 (the backend module
that declares these is not part of the snapshot). -/
inductive EngineError
  | SchemaError
  | ConfigError
  | NotReadyError
  | TrainingFailure
deriving DecidableEq, Repr

/- ===================== C1 : training blend weights ===================== -/

/-- Body of a training request as issued by the client
(`Dashboard.tsx`, `trainModel` / `trainAllModels`).  The train-all call
passes only `real_data_weight` in its query string, so the synthetic
weight is optional. -/
structure TrainRequest where
  hybrid_mode : Bool
  real_data_weight : ℚ
  synthetic_data_weight : Option ℚ
deriving DecidableEq, Repr

/-- The JSON body sent by `trainModel` in `Dashboard.tsx`:
`{hybrid_mode: true, real_data_weight: 0.7, synthetic_data_weight: 0.3}`. -/
def trainModelBody : TrainRequest :=
  { hybrid_mode := true
    real_data_weight := 7/10
    synthetic_data_weight := some (3/10) }

/-- The query parameters sent by `trainAllModels` in `Dashboard.tsx`:
`train-all?hybrid_mode=true&real_data_weight=0.7` (no synthetic weight). -/
def trainAllModelsQuery : TrainRequest :=
  { hybrid_mode := true
    real_data_weight := 7/10
    synthetic_data_weight := none }

/-- Modelled from the spec: the server default `synthetic_data_weight = 0.3`
from the training interface `POST train(domain, {hybrid_mode: bool,
real_data_weight: float=0.7, synthetic_data_weight: float=0.3})`; the
backend that applies the default is not in the snapshot. -/
def default_synthetic_data_weight : ℚ := 3/10

/-- Modelled from the spec: the server default `real_data_weight = 0.7`. -/
def default_real_data_weight : ℚ := 7/10

/-- The synthetic weight a request carries once the server default fills a
missing field. -/
def effective_synthetic_weight (r : TrainRequest) : ℚ :=
  r.synthetic_data_weight.getD default_synthetic_data_weight

/-- Modelled from the spec: the Hybrid Blender precondition of section 4.3
(weights sum to 1.0, else normalize, and fail with `ConfigError` if either
is negative); the blender itself is not in the snapshot. -/
def normalizeWeights (rw sw : ℚ) : Except EngineError (ℚ × ℚ) :=
  if rw < 0 ∨ sw < 0 then .error .ConfigError
  else if rw + sw = 0 then .error .ConfigError
  else .ok (rw / (rw + sw), sw / (rw + sw))

/- ===================== C2 : pit urgency heuristic ====================== -/

/-- Modelled from the spec: the pit-stop post-processing heuristic
(section 4.7) — `pit_urgency` (0–100) is a monotonic function of
`(tire_age - optimal_pit_lap_margin)` and `tire_degradation_rate`,
clipped to [0,100]; the backend Prediction Service that computes it is
not in the snapshot.  A linear score with positive coefficients is taken
as the monotone core, floored to the integer the `PitStopPrediction`
schema requires. -/
def pit_urgency (tire_age optimal_pit_lap_margin tire_degradation_rate : ℚ) : ℤ :=
  let raw : ℚ := 50 + 5 * (tire_age - optimal_pit_lap_margin) + 200 * tire_degradation_rate
  min 100 (max 0 ⌊raw⌋)

/- ================== C3 : compound probability vector =================== -/

/-- Tire compound classes, the `TireCompound` union in
`types/dashboard.ts`: `'SOFT' | 'MEDIUM' | 'HARD' | 'INTERMEDIATE' | 'WET'`. -/
inductive TireCompound
  | SOFT
  | MEDIUM
  | HARD
  | INTERMEDIATE
  | WET
deriving DecidableEq, Repr

/-- The five compounds, in the order the `TireCompound` union declares
them; a `Record<TireCompound, number>` has exactly one entry per element
of this list. -/
def allCompounds : List TireCompound :=
  [.SOFT, .MEDIUM, .HARD, .INTERMEDIATE, .WET]

/-- Modelled from the spec: the tire Prediction Service maps classifier
probabilities to `compound_probabilities` (section 4.7); the backend is
not in the snapshot.  Raw per-class classifier scores are normalized by
their total so the published vector sums to one. -/
def compound_probabilities (score : TireCompound → ℚ) : TireCompound → ℚ :=
  fun c => score c / (allCompounds.map score).sum

/- ================== C4 : not-loaded prediction gate ==================== -/

/-- Registry status of a model, the `status` field of `ModelStatus` in
`types/dashboard.ts`: `'loaded' | 'trained' | 'not_loaded' | 'error'`. -/
inductive RegistryStatus
  | loaded
  | trained
  | not_loaded
  | error
deriving DecidableEq, Repr

/-- Modelled from the spec: a domain is servable exactly when its registry
status is `READY`/`trained`/`loaded` (spec sections 4.6 and 7). -/
def RegistryStatus.ready : RegistryStatus → Bool
  | .loaded => true
  | .trained => true
  | _ => false

/-- Modelled from the spec: the Prediction Service gate — a prediction
against a domain whose status is not ready fails with `NotReadyError`
and no model inference runs; the serving layer is not in the snapshot.
`run` stands for the loaded model's inference-plus-postprocessing. -/
def servePrediction {Req Resp : Type} (s : RegistryStatus)
    (run : Req → Resp) (req : Req) : Except EngineError Resp :=
  if s.ready then .ok (run req) else .error .NotReadyError

/- ==================== C5 : race-pace trend heuristic =================== -/

/-- The two values of `performance_assessment.trend` in
`types/dashboard.ts`: `'improving' | 'degrading'`. -/
inductive Trend
  | improving
  | degrading
deriving DecidableEq, Repr

/-- Consecutive deltas of a lap-time sequence (time of lap `n+1` minus
time of lap `n`). -/
def lapDeltas (times : List ℚ) : List ℚ :=
  List.zipWith (fun a b => b - a) times times.tail

/-- The trailing window of length `k` of a list (the whole list when it
is shorter than `k`). -/
def trailing (k : ℕ) (xs : List ℚ) : List ℚ :=
  xs.drop (xs.length - k)

/-- Whether a list is a strictly decreasing chain. -/
def isStrictlyDecreasing : List ℚ → Bool
  | [] => true
  | [_] => true
  | a :: b :: rest => decide (b < a) && isStrictlyDecreasing (b :: rest)

/-- Modelled from the spec: the "short trailing window" of section 4.7;
the backend fixes its length, taken here as three deltas. -/
def trendWindow : ℕ := 3

/-- Modelled from the spec: the race-pace post-processing of section 4.7 —
`trend` is `improving` when the short trailing window of predicted
lap-time deltas is decreasing, else `degrading`; the backend Prediction
Service is not in the snapshot. -/
def assessTrend (lap_prediction_times : List ℚ) : Trend :=
  if isStrictlyDecreasing (trailing trendWindow (lapDeltas lap_prediction_times))
  then .improving else .degrading

/- ================= C6 : tire response field inventory ================== -/

/-- The field names of the tire prediction response, read off the
`TireDegradationProfile` interface in `types/dashboard.ts`. -/
def tireProfileFields : List String :=
  ["recommended_compound", "compound_confidence", "compound_probabilities",
   "predicted_stint_length", "degradation_rate_per_lap",
   "expected_time_loss_per_lap", "strategy_notes"]

/-- The field names the spec's section 6 response table lists for the tire
domain, with its `expected_time_loss_per_lap_ms` spelling; kept separate
from `tireProfileFields` so the two inventories can be compared. -/
def tireProfileFieldsSpec : List String :=
  ["recommended_compound", "compound_confidence", "compound_probabilities",
   "predicted_stint_length", "degradation_rate_per_lap",
   "expected_time_loss_per_lap_ms", "strategy_notes"]

/-- The spec-side inventory after renaming the one field the source
spells differently: the source interface calls the milliseconds value
`expected_time_loss_per_lap`. -/
def tireProfileFieldsSpecAmended : List String :=
  tireProfileFieldsSpec.map
    (fun f => if f = "expected_time_loss_per_lap_ms"
              then "expected_time_loss_per_lap" else f)

/- =================== C7 : pit strategy options shape =================== -/

/-- The qualitative risk tiers of a strategy option, the `risk` field of
`StrategyOption` in `types/dashboard.ts`: `'Low' | 'Medium' | 'High'`. -/
inductive Risk
  | Low
  | Medium
  | High
deriving DecidableEq, Repr

/-- One named pit-strategy alternative, the `StrategyOption` interface in
`types/dashboard.ts`. -/
structure StrategyOption where
  name : String
  pit_lap : ℤ
  compound : TireCompound
  expected_gain : String
  risk : Risk
deriving DecidableEq, Repr

/-- Modelled from the spec: the qualitative risk tier of section 4.7,
derived from how far an option's lap deviates from the model's point
estimate. -/
def riskTier (deviation : ℤ) : Risk :=
  if deviation.natAbs ≤ 1 then .Low
  else if deviation.natAbs ≤ 3 then .Medium
  else .High

/-- Modelled from the spec: the pit-stop `strategy_options` heuristic of
section 4.7 — 2–3 named alternatives (such as "Aggressive" and
"Conservative"), each with a projected pit lap around the model's point
estimate, a compound and a risk tier from its lap deviation; the backend
Prediction Service is not in the snapshot. -/
def strategy_options (optimal_pit_lap : ℤ) (compound : TireCompound) :
    List StrategyOption :=
  [ { name := "Aggressive", pit_lap := optimal_pit_lap - 3, compound := compound,
      expected_gain := "undercut window", risk := riskTier (-3) },
    { name := "Balanced", pit_lap := optimal_pit_lap, compound := compound,
      expected_gain := "optimal stop", risk := riskTier 0 },
    { name := "Conservative", pit_lap := optimal_pit_lap + 3, compound := compound,
      expected_gain := "tire offset", risk := riskTier 3 } ]

/- ================ C9 : tire degradation chart generator ================ -/

/-- One point of the rendered degradation chart, the local
`DegradationDataPoint` shape of `RivalWatch.tsx` (`TireStrategyCard`). -/
structure DegradationDataPoint where
  lap : ℕ
  soft : ℚ
  medium : ℚ
  hard : ℚ
deriving DecidableEq, Repr

/-- One compound's base curve parameters, an entry of the
`BASE_DEGRADATION` table in `RivalWatch.tsx`. -/
structure CompoundDegradation where
  base : ℚ
  rate : ℚ
  cliff : ℕ
deriving DecidableEq, Repr

/-- `BASE_DEGRADATION.SOFT` in `RivalWatch.tsx`: base 0, rate 0.08, cliff 18. -/
def BASE_DEGRADATION_SOFT : CompoundDegradation := ⟨0, 8/100, 18⟩

/-- `BASE_DEGRADATION.MEDIUM` in `RivalWatch.tsx`: base 0.3, rate 0.05, cliff 28. -/
def BASE_DEGRADATION_MEDIUM : CompoundDegradation := ⟨3/10, 5/100, 28⟩

/-- `BASE_DEGRADATION.HARD` in `RivalWatch.tsx`: base 0.6, rate 0.03, cliff 38. -/
def BASE_DEGRADATION_HARD : CompoundDegradation := ⟨6/10, 3/100, 38⟩

/-- The per-lap curve value with the cliff effect applied:
`base + lap*rate`, plus `(lap - cliff) * cliffRate` past the cliff lap. -/
def cliffAdjust (cd : CompoundDegradation) (cliffRate : ℚ) (lap : ℕ) : ℚ :=
  let v := cd.base + (lap : ℚ) * cd.rate
  if cd.cliff < lap then v + ((lap : ℚ) - (cd.cliff : ℚ)) * cliffRate else v

/-- The chart point for one lap, with each series capped by
`Math.min(4, ...)` as in the source. -/
def degPoint (lap : ℕ) : DegradationDataPoint :=
  { lap := lap
    soft := min 4 (cliffAdjust BASE_DEGRADATION_SOFT (15/100) lap)
    medium := min 4 (cliffAdjust BASE_DEGRADATION_MEDIUM (12/100) lap)
    hard := min 4 (cliffAdjust BASE_DEGRADATION_HARD (10/100) lap) }

/-- `generateDegradationData(maxLaps, degradationRate)` of
`RivalWatch.tsx`: laps 1..maxLaps mapped to chart points.  The source
declares the `degradationRate` parameter (the call site passes the
model's `degradation_rate_per_lap`) but its body never reads it. -/
def generateDegradationData (maxLaps : ℕ) (degradationRate : ℚ) :
    List DegradationDataPoint :=
  (List.range maxLaps).map (fun i => degPoint (i + 1))

/- ===================== C8 : track path resolution ====================== -/

/-- The `startFinish` field of a `TrackPath` in `RivalWatch.tsx`. -/
structure StartFinish where
  x : ℤ
  y : ℤ
  rotation : ℤ
deriving DecidableEq, Repr

/-- The `TrackPath` interface of `RivalWatch.tsx`: an SVG circuit layout. -/
structure TrackPath where
  name : String
  path : String
  viewBox : String
  startFinish : StartFinish
deriving DecidableEq, Repr

/-- The `TRACK_PATHS` record of `RivalWatch.tsx`, in declaration order
(object key iteration order for `Object.entries`). -/
def TRACK_PATHS : List (String × TrackPath) :=
  [ ("monaco",
     { name := "Circuit de Monaco"
       path := "M 50 120 L 100 120 Q 130 120 140 100 Q 150 80 180 80 L 260 80 Q 280 80 290 100 L 290 150 L 310 180 Q 320 200 310 220 L 290 250 Q 270 270 240 280 L 100 280 Q 70 270 50 250 L 40 200 Q 30 180 40 160 Z"
       viewBox := "0 0 350 320"
       startFinish := ⟨50, 120, 0⟩ }),
    ("silverstone",
     { name := "Silverstone Circuit"
       path := "M 80 100 Q 60 80 80 60 L 200 60 Q 250 60 280 100 Q 300 140 280 180 L 240 220 Q 200 240 160 240 L 100 220 Q 80 200 70 180 Q 60 140 80 100 Z"
       viewBox := "0 0 350 280"
       startFinish := ⟨120, 100, 0⟩ }),
    ("monza",
     { name := "Autodromo Nazionale di Monza"
       path := "M 50 150 L 300 150 L 300 100 Q 280 80 250 80 L 100 80 Q 70 80 50 100 Z M 50 150 L 50 200 Q 70 220 100 220 L 250 220 Q 280 220 300 200 L 300 150"
       viewBox := "0 0 350 300"
       startFinish := ⟨175, 150, 0⟩ }),
    ("spa",
     { name := "Circuit de Spa-Francorchamps"
       path := "M 60 200 L 100 180 Q 140 160 180 160 Q 220 160 260 180 L 290 200 L 280 120 Q 260 80 220 60 L 120 60 Q 80 80 70 120 L 60 200"
       viewBox := "0 0 350 260"
       startFinish := ⟨175, 200, 0⟩ }),
    ("singapore",
     { name := "Marina Bay Street Circuit"
       path := "M 100 80 L 250 80 L 280 110 L 280 180 Q 260 200 230 200 L 120 200 Q 90 200 70 180 L 70 110 Q 80 90 100 80 Z"
       viewBox := "0 0 350 280"
       startFinish := ⟨175, 80, 0⟩ }),
    ("cota",
     { name := "Circuit of the Americas"
       path := "M 80 100 L 270 100 Q 300 100 300 130 L 300 170 Q 280 200 240 220 L 160 220 Q 120 200 100 170 L 100 130 Q 100 100 130 100"
       viewBox := "0 0 400 240"
       startFinish := ⟨175, 100, 0⟩ }),
    ("suzuka",
     { name := "Suzuka International Racing Course"
       path := "M 175 50 Q 250 50 300 100 Q 320 150 300 200 Q 250 240 175 240 Q 100 240 50 200 Q 30 150 50 100 Q 100 50 175 50 M 175 145 Q 250 145 300 175 M 175 145 Q 100 145 50 175"
       viewBox := "0 0 350 290"
       startFinish := ⟨175, 145, 90⟩ }),
    ("interlagos",
     { name := "Autódromo José Carlos Pace"
       path := "M 100 100 Q 60 100 50 140 L 50 160 Q 60 200 100 200 L 250 200 Q 290 200 300 160 L 300 140 Q 290 100 250 100 L 100 100"
       viewBox := "0 0 350 220"
       startFinish := ⟨175, 100, 0⟩ }),
    ("red-bull-ring",
     { name := "Red Bull Ring"
       path := "M 80 100 L 270 100 L 300 130 L 300 170 L 270 200 L 80 200 L 50 170 L 50 130 Z"
       viewBox := "0 0 350 220"
       startFinish := ⟨175, 100, 0⟩ }),
    ("yas-marina",
     { name := "Yas Marina Circuit"
       path := "M 50 100 L 300 100 Q 320 110 320 130 L 320 170 Q 300 200 270 200 L 80 200 Q 50 200 50 170 L 50 130 Q 50 110 50 100"
       viewBox := "0 0 370 220"
       startFinish := ⟨175, 100, 0⟩ }) ]

/-- One step of `.replace(/[^a-z0-9]/g, '-')`: any character outside
lowercase letters and digits becomes a dash. -/
def dashifyChar (c : Char) : Char :=
  if ('a' ≤ c ∧ c ≤ 'z') ∨ ('0' ≤ c ∧ c ≤ '9') then c else '-'

/-- The global replace of the regex "one or more dashes" by a single
dash: collapse every run of dashes to one dash. -/
def collapseDashes : List Char → List Char
  | [] => []
  | c :: rest =>
    let tail := collapseDashes rest
    if c = '-' then
      match tail with
      | '-' :: t => '-' :: t
      | _ => '-' :: tail
    else c :: tail

/-- `.replace(/^-|-$/g, '')`: drop a single leading and a single trailing
dash (the pattern has no quantifier, so at most one of each). -/
def stripEdgeDashes (l : List Char) : List Char :=
  let l1 := match l with
    | '-' :: t => t
    | _ => l
  match l1.reverse with
  | '-' :: t => t.reverse
  | _ => l1

/-- The circuit-name normalization chain of `getTrackPath`:
lowercase, dashify, collapse dash runs, strip edge dashes. -/
def normalizeCircuitName (s : String) : String :=
  String.mk (stripEdgeDashes (collapseDashes ((s.toList.map Char.toLower).map dashifyChar)))

/-- Whether the first character list is a prefix of the second. -/
def startsWithL : List Char → List Char → Bool
  | [], _ => true
  | _ :: _, [] => false
  | a :: as, b :: bs => (a == b) && startsWithL as bs

/-- Whether `hay` contains `needle` as a contiguous substring
(JS `String.prototype.includes`). -/
def containsL (hay needle : List Char) : Bool :=
  match hay with
  | [] => needle.isEmpty
  | _ :: t => startsWithL needle hay || containsL t needle

/-- Direct key access `TRACK_PATHS[normalized]`. -/
def lookupTrack (key : String) : Option TrackPath :=
  (TRACK_PATHS.find? (fun p => p.1 == key)).map Prod.snd

/-- The partial-match loop of `getTrackPath`: the first entry whose key
contains the normalized name or is contained in it. -/
def findPartialTrack (normalized : String) : Option TrackPath :=
  (TRACK_PATHS.find? (fun p =>
    containsL normalized.toList p.1.toList ||
    containsL p.1.toList normalized.toList)).map Prod.snd

/-- The generic-oval fallback object of `getTrackPath`; its name is
`circuitName || 'Circuit'`, so the empty string falls back to
`"Circuit"`. -/
def genericOval (circuitName : String) : TrackPath :=
  { name := if circuitName = "" then "Circuit" else circuitName
    path := "M 60 150 Q 60 60 180 60 Q 300 60 300 150 Q 300 240 180 240 Q 60 240 60 150 Z"
    viewBox := "0 0 360 300"
    startFinish := ⟨180, 150, 0⟩ }

/-- `getTrackPath(circuitName)` of `RivalWatch.tsx`.  The declared
parameter type is `string | undefined` (`none` embeds `undefined`), but
the body's first statement is `circuitName.toLowerCase()`, which throws a
`TypeError` when `circuitName` is `undefined`; the thrown exception is
embedded as `none`. -/
def getTrackPath (circuitName : Option String) : Option TrackPath :=
  match circuitName with
  | none => none
  | some s =>
    let normalized := normalizeCircuitName s
    match lookupTrack normalized with
    | some t => some t
    | none =>
      match findPartialTrack normalized with
      | some t => some t
      | none => some (genericOval s)

/- ================= C10 : gap-to-leader display strings ================= -/

/-- JS `String.prototype.padStart(n, c)`. -/
def jsPadStart (s : String) (n : ℕ) (c : Char) : String :=
  if s.length < n then String.mk (List.replicate (n - s.length) c) ++ s else s

/-- JS `Number.prototype.toFixed(d)` over exact rationals: the integer
numerator closest to `q * 10^d` (ties toward the larger), printed with
`d` fraction digits. -/
def jsToFixed (d : ℕ) (q : ℚ) : String :=
  let m : ℤ := ⌊q * (10 : ℚ) ^ d + 1/2⌋
  let sign := if m < 0 then "-" else ""
  let a : ℕ := m.natAbs
  let ip := a / 10 ^ d
  let fp := a % 10 ^ d
  if d = 0 then sign ++ toString ip
  else sign ++ toString ip ++ "." ++ jsPadStart (toString fp) d '0'

/-- JS `%` (fmod, sign of the dividend) over exact rationals. -/
def jsFmod (a b : ℚ) : ℚ :=
  if 0 ≤ a then a - b * ⌊a / b⌋ else a - b * ⌈a / b⌉

/-- `formatGap` of `LeaderboardSnake` (numeric case): 0 renders as
`LEADER`, sub-minute gaps as `+` plus three decimals, larger gaps as
`+M:SS.S` with the seconds padded to width 4. -/
def formatGap (gap : ℚ) : String :=
  if gap = 0 then "LEADER"
  else if gap < 60 then "+" ++ jsToFixed 3 gap
  else
    let mins : ℤ := ⌊gap / 60⌋
    let secs : String := jsToFixed 1 (jsFmod gap 60)
    "+" ++ toString mins ++ ":" ++ jsPadStart secs 4 '0'

/-- The inline `gapDisplay` computation of the Dashboard standings list
(`Dashboard.tsx`, numeric case): 0 renders as `LEADER`, sub-minute gaps
as `+` plus three decimals plus `s`, larger gaps as `+MmSS.SSSs`. -/
def gapDisplay (gap : ℚ) : String :=
  if gap = 0 then "LEADER"
  else if gap < 60 then "+" ++ jsToFixed 3 gap ++ "s"
  else
    let minutes : ℤ := ⌊gap / 60⌋
    let seconds : String := jsToFixed 3 (jsFmod gap 60)
    "+" ++ toString minutes ++ "m" ++ seconds ++ "s"

end McChicken

namespace McChicken

/-- Claim C1: every training request the client issues carries blend
weights summing to 1.0 once the documented defaults fill missing fields —
the per-model body carries 0.7 + 0.3, the train-all query carries 0.7
with the default 0.3 — and any weight pair the spec-modelled blender
accepts is normalized to sum to 1.0. -/
theorem train_weights_sum_to_one :
    (trainModelBody.real_data_weight + effective_synthetic_weight trainModelBody = 1) ∧
    (trainAllModelsQuery.real_data_weight + effective_synthetic_weight trainAllModelsQuery = 1) ∧
    (∀ rw sw : ℚ, ∀ p : ℚ × ℚ, normalizeWeights rw sw = .ok p → p.1 + p.2 = 1) := by
  refine ⟨?_, ?_, ?_⟩
  · norm_num [trainModelBody, effective_synthetic_weight, default_synthetic_data_weight]
  · norm_num [trainAllModelsQuery, effective_synthetic_weight, default_synthetic_data_weight]
  intro rw sw p h
  unfold normalizeWeights at h
  by_cases hneg : rw < 0 ∨ sw < 0
  · simp [hneg] at h
  · by_cases hz : rw + sw = 0
    · simp [hneg, hz] at h
    · simp only [hneg, hz, if_false, ite_false] at h
      have hp : p = (rw / (rw + sw), sw / (rw + sw)) := by
        cases h; rfl
      subst hp
      field_simp

/-- Witness for C1 at the concrete weights 0.7 and 0.3. -/
theorem train_weights_sum_to_one_witness :
    normalizeWeights (7/10) (3/10) = .ok (7/10, 3/10) ∧ (7/10 : ℚ) + 3/10 = 1 := by
  have h : normalizeWeights (7/10) (3/10) = .ok (7/10, 3/10) := by
    unfold normalizeWeights
    norm_num
  exact ⟨h, train_weights_sum_to_one.2.2 (7/10) (3/10) (7/10, 3/10) h⟩

/-- Claim C2: `pit_urgency` is an integer always in [0,100], and holding
the pit-lap margin and degradation rate fixed it is monotonically
non-decreasing in `tire_age`. -/
theorem pit_urgency_bounds_mono
    (ta ta' margin rate : ℚ) (h : ta ≤ ta') :
    0 ≤ pit_urgency ta margin rate ∧
    pit_urgency ta margin rate ≤ 100 ∧
    pit_urgency ta margin rate ≤ pit_urgency ta' margin rate := by
  unfold pit_urgency
  refine ⟨le_min (by norm_num) (le_max_left 0 _), min_le_left _ _, ?_⟩
  have hraw : (50 + 5 * (ta - margin) + 200 * rate : ℚ) ≤
      50 + 5 * (ta' - margin) + 200 * rate := by linarith
  exact min_le_min le_rfl (max_le_max le_rfl (Int.floor_le_floor hraw))

/-- Witness for C2 at tire ages 20 and 25, margin 5, degradation rate 1/10. -/
theorem pit_urgency_bounds_mono_witness :
    (20 : ℚ) ≤ 25 ∧
    (0 ≤ pit_urgency 20 5 (1/10) ∧
     pit_urgency 20 5 (1/10) ≤ 100 ∧
     pit_urgency 20 5 (1/10) ≤ pit_urgency 25 5 (1/10)) :=
  ⟨by norm_num, pit_urgency_bounds_mono 20 25 5 (1/10) (by norm_num)⟩

/-- Claim C3: `compound_probabilities` has one entry per tire compound
(its domain is exactly the five-element compound list, without
duplicates) and, whenever the classifier scores have nonzero total, the
entries sum to 1. -/
theorem compound_probabilities_sum_one
    (score : TireCompound → ℚ) (h : (allCompounds.map score).sum ≠ 0) :
    (allCompounds.map (compound_probabilities score)).sum = 1 ∧
    allCompounds.Nodup ∧ ∀ c : TireCompound, c ∈ allCompounds := by
  refine ⟨?_, by decide, fun c => by cases c <;> decide⟩
  simp only [allCompounds, List.map_cons, List.map_nil, List.sum_cons, List.sum_nil,
    compound_probabilities] at h ⊢
  rw [add_zero] at h
  field_simp

/-- Witness for C3 at the uniform score vector assigning 1/5 everywhere. -/
theorem compound_probabilities_sum_one_witness :
    ((allCompounds.map (fun _ : TireCompound => (1:ℚ)/5)).sum ≠ 0) ∧
    (allCompounds.map (compound_probabilities (fun _ => (1:ℚ)/5))).sum = 1 := by
  have h : (allCompounds.map (fun _ : TireCompound => (1:ℚ)/5)).sum ≠ 0 := by
    simp [allCompounds]
    norm_num
  exact ⟨h, (compound_probabilities_sum_one (fun _ => (1:ℚ)/5) h).1⟩

/-- Claim C4: a prediction request to a domain whose registry status is
`not_loaded` fails with `NotReadyError` and never returns a fallback
prediction value. -/
theorem predict_not_loaded_not_ready :
    ∀ (Req Resp : Type) (run : Req → Resp) (req : Req),
      servePrediction RegistryStatus.not_loaded run req = .error .NotReadyError ∧
      ∀ resp : Resp, servePrediction RegistryStatus.not_loaded run req ≠ .ok resp := by
  intro Req Resp run req
  refine ⟨rfl, ?_⟩
  intro resp h
  simp [servePrediction, RegistryStatus.ready] at h

/-- Claim C5: `performance_assessment.trend` takes exactly the two values
`improving` and `degrading`, and equals `improving` exactly when the
trailing window of predicted lap-time deltas is strictly decreasing. -/
theorem trend_improving_iff_decreasing :
    ∀ times : List ℚ,
      (assessTrend times = .improving ∨ assessTrend times = .degrading) ∧
      (assessTrend times = .improving ↔
        isStrictlyDecreasing (trailing trendWindow (lapDeltas times)) = true) := by
  intro times
  unfold assessTrend
  constructor
  · split
    · exact Or.inl rfl
    · exact Or.inr rfl
  · split <;> simp_all

/-- Claim C6, counterexample: the source's tire response field inventory
does not match the spec's — in particular no field of the
`TireDegradationProfile` interface is named `expected_time_loss_per_lap_ms`. -/
theorem tire_fields_spec_mismatch :
    tireProfileFields ≠ tireProfileFieldsSpec ∧
    "expected_time_loss_per_lap_ms" ∉ tireProfileFields := by
  constructor
  · intro h
    simp [tireProfileFields, tireProfileFieldsSpec] at h
  · intro h
    simp [tireProfileFields] at h

/-- Claim C6, amended: the tire prediction response carries exactly the
seven fields of the spec's table once the expected time loss field is
spelled as the source spells it, `expected_time_loss_per_lap` (still the
milliseconds value). -/
theorem tire_fields_amended :
    tireProfileFields = tireProfileFieldsSpecAmended ∧
    "expected_time_loss_per_lap" ∈ tireProfileFields ∧
    tireProfileFields.length = 7 := by
  refine ⟨?_, ?_, rfl⟩
  · simp [tireProfileFields, tireProfileFieldsSpec, tireProfileFieldsSpecAmended]
  · simp [tireProfileFields]

/-- Claim C7: `strategy_options` yields between 2 and 3 named
alternatives, and each entry has a nonempty name, a projected pit lap, a
compound, an expected gain, and a risk tier drawn from
{Low, Medium, High} and derived from the lap's deviation from the point
estimate. -/
theorem strategy_options_shape :
    ∀ (optimal : ℤ) (cmp : TireCompound),
      2 ≤ (strategy_options optimal cmp).length ∧
      (strategy_options optimal cmp).length ≤ 3 ∧
      ∀ o ∈ strategy_options optimal cmp,
        o.name ≠ "" ∧
        (o.risk = .Low ∨ o.risk = .Medium ∨ o.risk = .High) ∧
        o.risk = riskTier (o.pit_lap - optimal) := by
  intro optimal cmp
  refine ⟨by simp [strategy_options], by simp [strategy_options], ?_⟩
  intro o ho
  simp only [strategy_options, List.mem_cons, List.mem_singleton,
    List.not_mem_nil, or_false] at ho
  rcases ho with rfl | rfl | rfl <;>
    refine ⟨by simp, by simp [riskTier], ?_⟩ <;> simp [riskTier]

/-- A cliff-adjusted curve with nonnegative rates is non-decreasing in
the lap number. -/
lemma cliffAdjust_mono (cd : CompoundDegradation) (cr : ℚ)
    (h1 : 0 ≤ cd.rate) (h2 : 0 ≤ cr) {a b : ℕ} (hab : a ≤ b) :
    cliffAdjust cd cr a ≤ cliffAdjust cd cr b := by
  have hc : (a : ℚ) ≤ (b : ℚ) := by exact_mod_cast hab
  have t1 : (a : ℚ) * cd.rate ≤ (b : ℚ) * cd.rate :=
    mul_le_mul_of_nonneg_right hc h1
  unfold cliffAdjust
  by_cases ha : cd.cliff < a <;> by_cases hb : cd.cliff < b
  · rw [if_pos ha, if_pos hb]
    have t2 : ((a : ℚ) - cd.cliff) * cr ≤ ((b : ℚ) - cd.cliff) * cr :=
      mul_le_mul_of_nonneg_right (by linarith) h2
    linarith
  · exact absurd (lt_of_lt_of_le ha hab) hb
  · rw [if_neg ha, if_pos hb]
    have hcb : (cd.cliff : ℚ) ≤ (b : ℚ) := by exact_mod_cast le_of_lt hb
    have t2 : 0 ≤ ((b : ℚ) - cd.cliff) * cr := mul_nonneg (by linarith) h2
    linarith
  · rw [if_neg ha, if_neg hb]
    linarith

/-- Claim C9: the rendered degradation data is independent of the
`degradationRate` argument, and in each returned list the soft, medium
and hard series are non-decreasing in lap and capped at 4. -/
theorem generateDegradationData_props :
    ∀ (maxLaps : ℕ) (r₁ r₂ : ℚ),
      generateDegradationData maxLaps r₁ = generateDegradationData maxLaps r₂ ∧
      (∀ p ∈ generateDegradationData maxLaps r₁,
        p.soft ≤ 4 ∧ p.medium ≤ 4 ∧ p.hard ≤ 4) ∧
      (generateDegradationData maxLaps r₁).Pairwise
        (fun p q => p.soft ≤ q.soft ∧ p.medium ≤ q.medium ∧ p.hard ≤ q.hard) := by
  intro maxLaps r₁ r₂
  refine ⟨rfl, ?_, ?_⟩
  · intro p hp
    simp only [generateDegradationData, List.mem_map] at hp
    obtain ⟨i, _, rfl⟩ := hp
    exact ⟨min_le_left _ _, min_le_left _ _, min_le_left _ _⟩
  · unfold generateDegradationData
    rw [List.pairwise_map]
    refine (List.pairwise_lt_range maxLaps).imp ?_
    intro i j hij
    have hab : i + 1 ≤ j + 1 := Nat.succ_le_succ (le_of_lt hij)
    refine ⟨?_, ?_, ?_⟩ <;>
      exact min_le_min le_rfl
        (cliffAdjust_mono _ _ (by norm_num [BASE_DEGRADATION_SOFT,
          BASE_DEGRADATION_MEDIUM, BASE_DEGRADATION_HARD]) (by norm_num) hab)

/-- Witness for C9: the first chart point of a two-lap list. -/
theorem generateDegradationData_props_witness :
    degPoint 1 ∈ generateDegradationData 2 0 ∧ (degPoint 1).soft ≤ 4 := by
  have hm : degPoint 1 ∈ generateDegradationData 2 0 := by
    simp only [generateDegradationData, List.mem_map, List.mem_range]
    exact ⟨0, by norm_num, rfl⟩
  exact ⟨hm, ((generateDegradationData_props 2 0 0).2.1 _ hm).1⟩

/-- Witness for C7 at point estimate 20 and the soft compound. -/
theorem strategy_options_shape_witness :
    ({ name := "Balanced", pit_lap := 20, compound := TireCompound.SOFT,
       expected_gain := "optimal stop", risk := riskTier 0 } : StrategyOption)
        ∈ strategy_options 20 TireCompound.SOFT ∧
    ({ name := "Balanced", pit_lap := 20, compound := TireCompound.SOFT,
       expected_gain := "optimal stop", risk := riskTier 0 } : StrategyOption).name ≠ "" := by
  have hm :
      ({ name := "Balanced", pit_lap := 20, compound := TireCompound.SOFT,
         expected_gain := "optimal stop", risk := riskTier 0 } : StrategyOption)
        ∈ strategy_options 20 TireCompound.SOFT := by
    simp [strategy_options]
  exact ⟨hm, ((strategy_options_shape 20 TireCompound.SOFT).2.2 _ hm).1⟩

/-- Claim C8: `getTrackPath` throws on the `undefined` member of its
declared parameter type (the unguarded `circuitName.toLowerCase()`),
embedded as the `none` result, while every string input — matched,
partially matched, or unknown — does produce a `TrackPath`. -/
theorem getTrackPath_undefined_throws :
    getTrackPath none = none ∧
    ∀ s : String, (getTrackPath (some s)).isSome = true := by
  refine ⟨rfl, ?_⟩
  intro s
  unfold getTrackPath
  rcases h1 : lookupTrack (normalizeCircuitName s) with _ | t
  · rcases h2 : findPartialTrack (normalizeCircuitName s) with _ | t
    · simp [h1, h2]
    · simp [h1, h2]
  · simp [h1]

/-- For nonzero sub-minute gaps, the Dashboard standings string is the
leaderboard `formatGap` string with an `s` appended. -/
lemma gap_sub_minute_suffix (g : ℚ) (h0 : g ≠ 0) (h60 : g < 60) :
    gapDisplay g = formatGap g ++ "s" := by
  unfold gapDisplay formatGap
  rw [if_neg h0, if_neg h0, if_pos h60, if_pos h60]

/-- Claim C10, counterexample: the two gap formatters disagree at the
numeric gap 5 — the Dashboard string carries a trailing `s` that
`formatGap` does not produce. -/
theorem gap_formatters_differ_at_five : formatGap 5 ≠ gapDisplay 5 := by
  have h : gapDisplay 5 = formatGap 5 ++ "s" :=
    gap_sub_minute_suffix 5 (by norm_num) (by norm_num)
  intro he
  rw [h] at he
  have hl := congrArg String.length he
  rw [String.length_append] at hl
  have hs : "s".length = 1 := rfl
  omega

/-- Claim C10, amended: both formatters render a zero gap as `LEADER`,
and for every nonzero sub-minute gap the Dashboard string equals the
leaderboard string with an `s` suffix; for 60 seconds or more the two
use different minute forms, so the strings themselves differ outside
zero. -/
theorem gap_formatters_agree_amended :
    (formatGap 0 = "LEADER" ∧ gapDisplay 0 = "LEADER") ∧
    ∀ g : ℚ, g ≠ 0 → g < 60 → gapDisplay g = formatGap g ++ "s" := by
  refine ⟨⟨?_, ?_⟩, ?_⟩
  · unfold formatGap
    rw [if_pos rfl]
  · unfold gapDisplay
    rw [if_pos rfl]
  · intro g h0 h60
    exact gap_sub_minute_suffix g h0 h60

/-- Witness for C10's amended claim at the gap 5. -/
theorem gap_formatters_agree_amended_witness :
    ((5 : ℚ) ≠ 0 ∧ (5 : ℚ) < 60) ∧ gapDisplay 5 = formatGap 5 ++ "s" :=
  ⟨⟨by norm_num, by norm_num⟩,
   gap_formatters_agree_amended.2 5 (by norm_num) (by norm_num)⟩

end McChicken
